import Mathlib

/-!
Verification development for `src/main.py` (JxlConverter).

The Python program is embedded shallowly:

* `classify` embeds the stderr-substring failure classifier
  (main.py lines 284-293).
* `convert_image` embeds `JxlConverter.convert_image` (lines 181-322) as a
  function of an `Env` oracle that fixes the result of every external
  interaction (file-size probes, the `cjxl` subprocess, `os.rename`, the
  `touch` subprocess, `os.remove` calls).  The filesystem effect on the three
  paths the function touches - the input file, the temporary output
  `input + ".jxl.tmp"`, and the finalized output
  `os.path.splitext(input)[0] + ".jxl"` - is tracked as three existence
  booleans in `FS`.  The code never writes to the input path, so "the original
  still exists" and "the original is unchanged" coincide in this model.
* `Metrics`, `recordOutcome`, `runRoot`, `run_conversion` embed the per-file
  counter fold of `JxlConverter.run_conversion` (lines 324-373); the
  `failed_reasons` `collections.Counter` is modelled as an insertion-ordered
  association list.
* `renderMetrics` embeds the per-directory rendering of
  `JxlConverter._generate_metrics_file` (lines 97-162), and `publishTrace`
  models the write-temp-then-`os.replace` publish step (lines 164-174).
-/

namespace JxlSpec

/-- Python's substring test `pat in s`: `pat.data` is an infix of `s.data`. -/
def containsSub (pat s : String) : Bool := decide (pat.data <:+: s.data)

/-- Python's `str.lower()`: lower-case the string character by character. -/
def lowerStr (s : String) : String := ⟨s.data.map Char.toLower⟩

/-- Python's `str.endswith(pat)`: `pat.data` is a suffix of `s.data`. -/
def endsWithStr (pat s : String) : Bool := decide (pat.data <:+ s.data)

/-- The failure classifier of main.py lines 284-293: first-match substring
table over the encoder's (stripped) stderr text.  Stripping leading/trailing
whitespace cannot create or destroy an occurrence of any of these patterns
(none begins or ends with whitespace), so the classifier is applied to the
raw stderr text here. -/
def classify (stderr_output : String) : String :=
  if containsSub "Error while decoding the JPEG image" stderr_output then
    "corrupt_or_unsupported_jpeg"
  else if containsSub "unsupported input type" (lowerStr stderr_output) then
    "unsupported_input_type"
  else if containsSub "out of memory" (lowerStr stderr_output) then
    "cjxl_out_of_memory"
  else if containsSub "EncodeImageJXL() failed" stderr_output then
    "cjxl_encoding_failed"
  else
    "generic_cjxl_failure"

/-- Result of the `subprocess.run(command, ..., check=False)` invocation of the
encoder (main.py line 223).  `check=False` means `CalledProcessError` is never
raised here, so the `except subprocess.CalledProcessError` arm at line 303 is
unreachable and has no constructor.  `tempWritten` records whether the encoder
left (partial or complete) output at the temporary path. -/
inductive EncoderResult where
  | exitCode (code : Int) (stderr : String) (tempWritten : Bool)
  | notFound
  | otherError (tempWritten : Bool)
  deriving DecidableEq, Repr

/-- Result of the `touch -r` invocation (main.py lines 241-242, `check=True`). -/
inductive TouchResult where
  | ok
  | notFound
  | calledProcessError (stderr : String)
  | otherError
  deriving DecidableEq, Repr

/-- Oracle fixing every external interaction of one `convert_image` call. -/
structure Env where
  /-- `os.path.getsize(input_filepath)` (line 209): `none` means `OSError`. -/
  getsizeOrig : Option Nat
  /-- the `cjxl` subprocess invocation (line 223). -/
  encoder : EncoderResult
  /-- `os.path.getsize(temp_output_filepath)` (line 231): `none` means `OSError`. -/
  getsizeTemp : Option Nat
  /-- does `os.rename(temp, final)` (line 235) succeed? -/
  renameOk : Bool
  /-- the `touch -r` invocation (line 242). -/
  touch : TouchResult
  /-- does `os.remove(input_filepath)` (line 246) succeed? -/
  removeOrigOk : Bool
  /-- does `os.remove(final_jxl_filepath)` (line 267) succeed? -/
  removeFinalOk : Bool
  /-- does the `finally`-block `os.remove(temp_output_filepath)` (line 317) succeed? -/
  cleanupTmpOk : Bool
  deriving DecidableEq, Repr

/-- Existence of the three paths `convert_image` touches: the input file, the
temporary output `input + ".jxl.tmp"`, and the finalized output
`os.path.splitext(input)[0] + ".jxl"`. -/
structure FS where
  origExists : Bool
  tmpExists : Bool
  finalExists : Bool
  deriving DecidableEq, Repr

/-- Filesystem state on entry to `convert_image`: the input exists, neither
the temporary nor the finalized output does. -/
def initFS : FS := ⟨true, false, false⟩

/-- The value record returned by `convert_image` (line 322); the wall-clock
`duration` float and the free-text `full_error_message` are omitted (neither
is consulted by any counter or metrics update). -/
structure Outcome where
  success : Bool
  original_size : Nat
  converted_size : Nat
  error_tag : Option String
  deriving DecidableEq, Repr

/-- The `finally` block of main.py lines 313-320: if the temporary output
still exists, try to remove it; a failing removal is only logged. -/
def cleanupTemp (env : Env) (fs : FS) : FS :=
  if fs.tmpExists then
    if env.cleanupTmpOk then { fs with tmpExists := false } else fs
  else fs

/-- Embedding of `JxlConverter.convert_image` (main.py lines 181-322).
Returns the end-of-call filesystem state together with the returned outcome
tuple.  The early `return` at line 214 happens before the `try/finally`, so
`cleanupTemp` is not applied on that path. -/
def convert_image (env : Env) : FS × Outcome :=
  match env.getsizeOrig with
  | none =>
      (initFS, ⟨false, 0, 0, some "file_system_error"⟩)
  | some original_size =>
      match env.encoder with
      | .notFound =>
          (cleanupTemp env initFS,
           ⟨false, original_size, 0, some "cjxl_not_found"⟩)
      | .otherError tempWritten =>
          (cleanupTemp env { initFS with tmpExists := tempWritten },
           ⟨false, original_size, 0, some "unexpected_python_error"⟩)
      | .exitCode code stderr tempWritten =>
          let fs : FS := { initFS with tmpExists := tempWritten }
          if code = 0 then
            match (if tempWritten then env.getsizeTemp else none) with
            | none =>
                (cleanupTemp env fs,
                 ⟨false, original_size, 0, some "file_system_error"⟩)
            | some converted_size =>
                if env.renameOk then
                  let fs : FS := { fs with tmpExists := false, finalExists := true }
                  match env.touch with
                  | .ok =>
                      if env.removeOrigOk then
                        (cleanupTemp env { fs with origExists := false },
                         ⟨true, original_size, converted_size, none⟩)
                      else
                        (cleanupTemp env
                          (if env.removeFinalOk then { fs with finalExists := false } else fs),
                         ⟨false, original_size, converted_size,
                          some "timestamp_preservation_failed"⟩)
                  | _ =>
                      (cleanupTemp env
                        (if env.removeFinalOk then { fs with finalExists := false } else fs),
                       ⟨false, original_size, converted_size,
                        some "timestamp_preservation_failed"⟩)
                else
                  (cleanupTemp env fs,
                   ⟨false, original_size, converted_size, some "file_system_error"⟩)
          else
            (cleanupTemp env fs,
             ⟨false, original_size, 0, some (classify stderr)⟩)

/-- One root's metrics record (main.py lines 49-59).  `failed_reasons` models
the `collections.Counter` as an insertion-ordered association list; the two
space-saved gauges are signed (`original - converted` may be negative). -/
structure Metrics where
  total_conversions : Nat
  successful_conversions : Nat
  failed_conversions : Nat
  failed_reasons : List (String × Nat)
  total_space_saved_bytes : Int
  last_interval_space_saved_bytes : Int
  total_original_bytes_processed : Nat
  total_converted_bytes_processed : Nat
  deriving DecidableEq, Repr

/-- The per-root metrics record as initialized in `__init__` (lines 49-59). -/
def initMetrics : Metrics := ⟨0, 0, 0, [], 0, 0, 0, 0⟩

/-- `Counter[key] += 1` on the association-list model of `failed_reasons`. -/
def incrReason (h : List (String × Nat)) (k : String) : List (String × Nat) :=
  match h with
  | [] => [(k, 1)]
  | (k', c) :: t => if k' = k then (k', c + 1) :: t else (k', c) :: incrReason t k

/-- The per-file counter fold of `run_conversion` (main.py lines 351-368). -/
def recordOutcome (m : Metrics) (o : Outcome) : Metrics :=
  let m := { m with total_conversions := m.total_conversions + 1 }
  if o.success then
    let saved_bytes : Int := (o.original_size : Int) - (o.converted_size : Int)
    { m with
      successful_conversions := m.successful_conversions + 1,
      total_space_saved_bytes := m.total_space_saved_bytes + saved_bytes,
      last_interval_space_saved_bytes := m.last_interval_space_saved_bytes + saved_bytes,
      total_original_bytes_processed := m.total_original_bytes_processed + o.original_size,
      total_converted_bytes_processed := m.total_converted_bytes_processed + o.converted_size }
  else
    let reason_key := o.error_tag.getD "unknown_error"
    { m with
      failed_conversions := m.failed_conversions + 1,
      failed_reasons := incrReason m.failed_reasons reason_key }

/-- The eligibility filter of main.py line 343:
`file.lower().endswith(('.jpg', '.jpeg'))`. -/
def isEligible (file : String) : Bool :=
  endsWithStr ".jpg" (lowerStr file) || endsWithStr ".jpeg" (lowerStr file)

/-- Processing of one root's file list (main.py lines 340-368): each file
found by the walk is fed to `convert_image` iff it passes the eligibility
filter, and the returned outcome is folded into the root's metrics.
`envOf` fixes the external-world oracle for each file. -/
def runRoot (envOf : String → Env) (m : Metrics) (files : List String) : Metrics :=
  files.foldl
    (fun acc file =>
      if isEligible file then recordOutcome acc (convert_image (envOf file)).2 else acc)
    m

/-- `JxlConverter.run_conversion` over all roots (main.py lines 324-373,
metrics part): first every root's `last_interval_space_saved_bytes` is reset
to 0 (lines 333-334), then each root's walked file list is processed in turn.
`filesOf` gives the files `os.walk` yields under each root. -/
def run_conversion (envOf : String → String → Env) (filesOf : String → List String)
    (data : List (String × Metrics)) : List (String × Metrics) :=
  (data.map fun dm => (dm.1, { dm.2 with last_interval_space_saved_bytes := 0 })).map
    fun dm => (dm.1, runRoot (envOf dm.1) dm.2 (filesOf dm.1))

/-- The inner loop body of lines 351-368 viewed at the level of the whole
`metrics_data` mapping: only the entry of the root being processed is updated
(the loop mutates `metrics = self.metrics_data[source_dir]` in place). -/
def recordOutcomeAt (data : List (String × Metrics)) (dir : String) (o : Outcome) :
    List (String × Metrics) :=
  data.map fun dm => if dm.1 = dir then (dm.1, recordOutcome dm.2 o) else dm

/-- `reason.replace(" ", "_").replace("-", "_").lower()` of main.py line 132:
the two single-character replacements compose into one character map, followed
by lower-casing. -/
def standardizeReason (reason : String) : String :=
  lowerStr ⟨reason.data.map fun c => if c = ' ' then '_' else if c = '-' then '_' else c⟩

/-- Metric sample line for `jpeg_to_jxl_conversions_total` (line 111). -/
def totalSample (d : String) (n : Nat) : String :=
  "jpeg_to_jxl_conversions_total\x7bdirectory=\"" ++ d ++ "\"\x7d " ++ toString n

/-- Metric sample line for `jpeg_to_jxl_conversions_successful_total` (line 118). -/
def successfulSample (d : String) (n : Nat) : String :=
  "jpeg_to_jxl_conversions_successful_total\x7bdirectory=\"" ++ d ++ "\"\x7d " ++ toString n

/-- The placeholder failure sample emitted when the histogram is empty
(line 127): `reason="none"`, value `0`. -/
def failedNoneSample (d : String) : String :=
  "jpeg_to_jxl_conversions_failed_total\x7bdirectory=\"" ++ d ++ "\",reason=\"none\"\x7d 0"

/-- One failure sample line for an observed reason tag (lines 133-134). -/
def failedSample (d reason : String) (count : Nat) : String :=
  "jpeg_to_jxl_conversions_failed_total\x7bdirectory=\"" ++ d ++ "\",reason=\""
    ++ standardizeReason reason ++ "\"\x7d " ++ toString count

/-- Metric sample line for `jpeg_to_jxl_space_saved_bytes_total` (line 141). -/
def savedTotalSample (d : String) (n : Int) : String :=
  "jpeg_to_jxl_space_saved_bytes_total\x7bdirectory=\"" ++ d ++ "\"\x7d " ++ toString n

/-- Metric sample line for `jpeg_to_jxl_space_saved_bytes_last_interval` (line 148). -/
def savedLastSample (d : String) (n : Int) : String :=
  "jpeg_to_jxl_space_saved_bytes_last_interval\x7bdirectory=\"" ++ d ++ "\"\x7d " ++ toString n

/-- Metric sample line for `jpeg_to_jxl_original_bytes_processed_total` (line 155). -/
def origBytesSample (d : String) (n : Nat) : String :=
  "jpeg_to_jxl_original_bytes_processed_total\x7bdirectory=\"" ++ d ++ "\"\x7d " ++ toString n

/-- Metric sample line for `jpeg_to_jxl_converted_bytes_processed_total` (line 162). -/
def convBytesSample (d : String) (n : Nat) : String :=
  "jpeg_to_jxl_converted_bytes_processed_total\x7bdirectory=\"" ++ d ++ "\"\x7d " ++ toString n

/-- The failure block of the rendered content (lines 124-134): the placeholder
zero line when the histogram is empty, otherwise one line per histogram entry
in insertion order. -/
def failedBlock (d : String) (m : Metrics) : List String :=
  if m.failed_reasons.isEmpty then [failedNoneSample d]
  else m.failed_reasons.map fun rc => failedSample d rc.1 rc.2

/-- The full `metrics_content` line list rendered for one root by
`_generate_metrics_file` (main.py lines 98-162), in source order.  `d` is the
sanitized `prom_label_dir` label value. -/
def renderMetrics (d : String) (m : Metrics) : List String :=
  ["# HELP jpeg_to_jxl_conversions_total Total JPEG to JXL conversions attempted per directory.",
   "# TYPE jpeg_to_jxl_conversions_total counter",
   totalSample d m.total_conversions,
   "# HELP jpeg_to_jxl_conversions_successful_total Total successful JPEG to JXL conversions per directory.",
   "# TYPE jpeg_to_jxl_conversions_successful_total counter",
   successfulSample d m.successful_conversions,
   "# HELP jpeg_to_jxl_conversions_failed_total Total failed JPEG to JXL conversions per directory.",
   "# TYPE jpeg_to_jxl_conversions_failed_total counter"]
  ++ failedBlock d m
  ++ ["# HELP jpeg_to_jxl_space_saved_bytes_total Total space saved by JXL conversions in bytes per directory.",
      "# TYPE jpeg_to_jxl_space_saved_bytes_total gauge",
      savedTotalSample d m.total_space_saved_bytes,
      "# HELP jpeg_to_jxl_space_saved_bytes_last_interval Space saved in the last conversion interval in bytes per directory.",
      "# TYPE jpeg_to_jxl_space_saved_bytes_last_interval gauge",
      savedLastSample d m.last_interval_space_saved_bytes,
      "# HELP jpeg_to_jxl_original_bytes_processed_total Total bytes of original files processed successfully per directory.",
      "# TYPE jpeg_to_jxl_original_bytes_processed_total gauge",
      origBytesSample d m.total_original_bytes_processed,
      "# HELP jpeg_to_jxl_converted_bytes_processed_total Total bytes of converted JXL files processed successfully per directory.",
      "# TYPE jpeg_to_jxl_converted_bytes_processed_total gauge",
      convBytesSample d m.total_converted_bytes_processed]

/-- A line is a sample of the `jpeg_to_jxl_conversions_failed_total` family iff
it starts with the family name followed by the opening label brace.  (`# HELP`
and `# TYPE` comment lines never match, and no other family's sample can match
whatever the directory label contains, because the test only looks at the
fixed leading characters.) -/
def isFailedSampleLine (l : String) : Bool :=
  decide (("jpeg_to_jxl_conversions_failed_total\x7b").data <+: l.data)

/-- The per-root metrics artifact file name (main.py line 165), from the MD5
hex digest of the root path (the digest itself stays abstract here). -/
def metricsFileName (dir_hash : String) : String :=
  "jxl_conversion_metrics_" ++ dir_hash ++ ".prom"

/-- The temporary publish path (main.py line 167): the final artifact path
with `".tmp"` appended, hence a path in the same directory. -/
def tempPathOf (p : String) : String := p ++ ".tmp"

/-- Contents visible at the final artifact path and at its temporary publish
path, for the atomic-publish model of lines 169-174. -/
structure PublishFS where
  finalContent : Option String
  tempContent : Option String
  deriving DecidableEq, Repr

/-- The sequence of filesystem states a reader can observe while
`_generate_metrics_file` publishes one artifact (lines 169-174): starting from
the previous state (`old` at the final path, no temp file), the full rendered
`content` is written to the temporary path, then `os.replace` atomically
installs it over the final path.  `interrupt = some k` models the process
being killed after `k` characters of the temp write, before the rename (the
rename itself is atomic, so there is no intermediate state of the final
path). -/
def publishTrace (old : Option String) (content : String) (interrupt : Option Nat) :
    List PublishFS :=
  match interrupt with
  | some k => [⟨old, none⟩, ⟨old, some ⟨content.data.take k⟩⟩]
  | none => [⟨old, none⟩, ⟨old, some content⟩, ⟨some content, none⟩]

/-- The counter-consistency invariant of the spec:
`total_conversions = successful_conversions + failed_conversions`. -/
def countersConsistent (m : Metrics) : Prop :=
  m.total_conversions = m.successful_conversions + m.failed_conversions

/-- The keys currently present in a root's failure-reason histogram. -/
def histKeys (m : Metrics) : List String :=
  m.failed_reasons.map fun rc => rc.1

/-- The total of all counts in a root's failure-reason histogram. -/
def histTotal (m : Metrics) : Nat :=
  (m.failed_reasons.map fun rc => rc.2).sum

/-- The closed set of reason keys the code can actually record: the
`error_tag` values assigned inside `convert_image`, plus the
`"unknown_error"` fallback of line 367.  (`"cjxl_execution_error_subprocess"`
of line 304 is absent: its handler is unreachable because the encoder is run
with `check=False`.) -/
def conversionReasonTags : List String :=
  ["file_system_error", "cjxl_not_found", "corrupt_or_unsupported_jpeg",
   "unsupported_input_type", "cjxl_out_of_memory", "cjxl_encoding_failed",
   "generic_cjxl_failure", "timestamp_preservation_failed",
   "unexpected_python_error", "unknown_error"]

/-- An oracle for a fully successful conversion (the spec's `photo.jpg`
scenario: 2,000,000-byte original, 1,200,000-byte output, every external
step succeeds). -/
def sampleEnv : Env :=
  ⟨some 2000000, .exitCode 0 "" true, some 1200000, true, .ok, true, true, true⟩

end JxlSpec

namespace JxlSpec

/-- Generic invariant-preservation principle for the per-root file loop: any
property of a root's metrics preserved by folding in one `convert_image`
outcome is preserved by `runRoot`. -/
theorem runRoot_induct (envOf : String → Env) (P : Metrics → Prop)
    (hstep : ∀ (m : Metrics) (f : String), P m → P (recordOutcome m (convert_image (envOf f)).2)) :
    ∀ (files : List String) (m : Metrics), P m → P (runRoot envOf m files) := by
  intro files
  induction files with
  | nil => intro m hm; simpa [runRoot] using hm
  | cons f fs ih =>
      intro m hm
      have hstepm : runRoot envOf m (f :: fs) =
          runRoot envOf
            (if isEligible f then recordOutcome m (convert_image (envOf f)).2 else m) fs := rfl
      rw [hstepm]
      apply ih
      by_cases he : isEligible f
      · simpa [he] using hstep m f hm
      · simpa [he] using hm

/-- Incrementing one histogram key raises the total of all counts by one. -/
theorem incrReason_sum (h : List (String × Nat)) (k : String) :
    ((incrReason h k).map fun rc => rc.2).sum = ((h.map fun rc => rc.2).sum) + 1 := by
  induction h with
  | nil => simp [incrReason]
  | cons kv t ih =>
      obtain ⟨ka, c⟩ := kv
      by_cases hk : ka = k
      · simp [incrReason, hk]
        omega
      · simp [incrReason, hk, ih]
        omega

/-- Incrementing one histogram key introduces no key other than that one. -/
theorem incrReason_keys (k k' : String) :
    ∀ h : List (String × Nat), k' ∈ ((incrReason h k).map fun rc => rc.1) →
      k' ∈ (h.map fun rc => rc.1) ∨ k' = k := by
  intro h
  induction h with
  | nil =>
      intro hmem
      simp [incrReason] at hmem
      simp [hmem]
  | cons kv t ih =>
      obtain ⟨ka, c⟩ := kv
      intro hmem
      by_cases hk : ka = k
      · subst hk
        simp only [incrReason, if_true, eq_self_iff_true, List.map_cons, List.mem_cons]
          at hmem ⊢
        tauto
      · simp only [incrReason, if_neg hk, List.map_cons, List.mem_cons] at hmem ⊢
        rcases hmem with h1 | h1
        · tauto
        · rcases ih h1 with h2 | h2 <;> tauto

/-- The classifier only ever returns one of its five table tags. -/
theorem classify_cases (s : String) :
    classify s = "corrupt_or_unsupported_jpeg" ∨ classify s = "unsupported_input_type" ∨
    classify s = "cjxl_out_of_memory" ∨ classify s = "cjxl_encoding_failed" ∨
    classify s = "generic_cjxl_failure" := by
  unfold classify
  split_ifs <;> simp

/-- Whatever the environment does, the reason key that `run_conversion` would
record for the returned outcome lies in the closed tag set. -/
theorem reasonKey_mem (env : Env) :
    ((convert_image env).2.error_tag.getD "unknown_error") ∈ conversionReasonTags := by
  rcases env with ⟨gso, enc, gst, rok, t, roo, rfo, cok⟩
  cases gso with
  | none => simp [convert_image, conversionReasonTags]
  | some sz =>
    cases enc with
    | notFound => simp [convert_image, conversionReasonTags]
    | otherError tw => simp [convert_image, conversionReasonTags]
    | exitCode code stderr tw =>
      by_cases hc : code = 0
      · cases tw
        · simp [convert_image, hc, conversionReasonTags]
        · cases gst with
          | none => simp [convert_image, hc, conversionReasonTags]
          | some cs =>
            cases rok
            · simp [convert_image, hc, conversionReasonTags]
            · cases t <;> cases roo <;> simp [convert_image, hc, conversionReasonTags]
      · have hcl := classify_cases stderr
        cases tw <;> simp [convert_image, hc, conversionReasonTags] <;> tauto

/-- C1 (amended): on success the filesystem holds exactly the finalized
output (original gone, temporary gone); on failure the original input still
exists and, provided the code's removal of an already-finalized output
succeeds, no finalized output exists.  (The unamended two-state claim fails
exactly when that removal fails; see the counterexample.) -/
theorem C1_end_states (env : Env) :
    ((convert_image env).2.success = true →
       (convert_image env).1 = ⟨false, false, true⟩)
  ∧ ((convert_image env).2.success = false →
       (convert_image env).1.origExists = true ∧
       (env.removeFinalOk = true → (convert_image env).1.finalExists = false)) := by
  rcases env with ⟨gso, enc, gst, rok, t, roo, rfo, cok⟩
  cases gso with
  | none => simp [convert_image, initFS]
  | some sz =>
    cases enc with
    | notFound => simp [convert_image, cleanupTemp, initFS]
    | otherError tw => cases tw <;> cases cok <;> simp [convert_image, cleanupTemp, initFS]
    | exitCode code stderr tw =>
      by_cases hc : code = 0
      · cases tw
        · simp [convert_image, hc, cleanupTemp, initFS]
        · cases gst with
          | none => cases cok <;> simp [convert_image, hc, cleanupTemp, initFS]
          | some cs =>
            cases rok
            · cases cok <;> simp [convert_image, hc, cleanupTemp, initFS]
            · cases t <;> cases roo <;> cases rfo <;>
                simp [convert_image, hc, cleanupTemp, initFS]
      · cases tw <;> cases cok <;> simp [convert_image, hc, cleanupTemp, initFS]

/-- C1 witness: a fully successful run ends with the original removed and
exactly the finalized output present. -/
theorem C1_end_states_witness :
    (convert_image sampleEnv).2.success = true ∧
    (convert_image sampleEnv).1 = ⟨false, false, true⟩ :=
  ⟨by decide, (C1_end_states sampleEnv).1 (by decide)⟩

/-- C1 counterexample to the claim as stated: if the encoder and the
finalize-rename succeed, the `touch` invocation fails, and the subsequent
`os.remove(final_jxl_filepath)` also fails (main.py lines 266-270 merely log
this), the outcome is a failure and yet a finalized `.jxl` replacement still
exists alongside the original - a third end state. -/
theorem C1_two_state_counterexample :
    ((convert_image ⟨some 100, .exitCode 0 "" true, some 40, true,
        .calledProcessError "boom", true, false, true⟩).2.success = false)
    ∧ ((convert_image ⟨some 100, .exitCode 0 "" true, some 40, true,
        .calledProcessError "boom", true, false, true⟩).1.finalExists = true)
    ∧ ((convert_image ⟨some 100, .exitCode 0 "" true, some 40, true,
        .calledProcessError "boom", true, false, true⟩).1.origExists = true) := by
  decide

end JxlSpec

namespace JxlSpec

/-- C2: `total_conversions = successful_conversions + failed_conversions`
holds initially, is preserved by every per-file counter update, hence holds
after any per-root file sequence and for every root at publish time after
`run_conversion`. -/
theorem C2_counters_consistent :
    countersConsistent initMetrics
    ∧ (∀ (m : Metrics) (o : Outcome),
        countersConsistent m → countersConsistent (recordOutcome m o))
    ∧ (∀ (envOf : String → Env) (m : Metrics) (files : List String),
        countersConsistent m → countersConsistent (runRoot envOf m files))
    ∧ (∀ (envOf : String → String → Env) (filesOf : String → List String)
          (data : List (String × Metrics)),
        (∀ dm ∈ data, countersConsistent dm.2) →
        ∀ dm ∈ run_conversion envOf filesOf data, countersConsistent dm.2) := by
  have hrec : ∀ (m : Metrics) (o : Outcome),
      countersConsistent m → countersConsistent (recordOutcome m o) := by
    intro m o hm
    cases ho : o.success <;>
      simp [recordOutcome, ho, countersConsistent] at hm ⊢ <;> omega
  have hroot : ∀ (envOf : String → Env) (m : Metrics) (files : List String),
      countersConsistent m → countersConsistent (runRoot envOf m files) := by
    intro envOf m files hm
    exact runRoot_induct envOf countersConsistent (fun m f hm => hrec m _ hm) files m hm
  refine ⟨rfl, hrec, hroot, ?_⟩
  intro envOf filesOf data hdata dm hdm
  simp only [run_conversion, List.map_map, List.mem_map, Function.comp] at hdm
  obtain ⟨dm0, hdm0, rfl⟩ := hdm
  apply hroot
  simpa [countersConsistent] using hdata dm0 hdm0

/-- C2 witness: the invariant holds concretely after folding one successful
conversion into fresh counters. -/
theorem C2_counters_consistent_witness :
    countersConsistent (runRoot (fun _ => sampleEnv) initMetrics ["photo.jpg"]) :=
  C2_counters_consistent.2.2.1 (fun _ => sampleEnv) initMetrics ["photo.jpg"] rfl

/-- C3: when the encoder exits non-zero, the recorded reason tag is exactly
`classify` of the encoder's stderr text, and `classify` is the fixed-priority
first-match substring table of the claim (second and third patterns matched
case-insensitively via lower-casing). -/
theorem C3_classifier (env : Env) (sz : Nat) (code : Int) (stderr : String) (tw : Bool)
    (h1 : env.getsizeOrig = some sz) (h2 : env.encoder = .exitCode code stderr tw)
    (hc : ¬ code = 0) :
    (convert_image env).2.error_tag = some (classify stderr)
    ∧ (containsSub "Error while decoding the JPEG image" stderr = true →
        classify stderr = "corrupt_or_unsupported_jpeg")
    ∧ (containsSub "Error while decoding the JPEG image" stderr = false →
        containsSub "unsupported input type" (lowerStr stderr) = true →
        classify stderr = "unsupported_input_type")
    ∧ (containsSub "Error while decoding the JPEG image" stderr = false →
        containsSub "unsupported input type" (lowerStr stderr) = false →
        containsSub "out of memory" (lowerStr stderr) = true →
        classify stderr = "cjxl_out_of_memory")
    ∧ (containsSub "Error while decoding the JPEG image" stderr = false →
        containsSub "unsupported input type" (lowerStr stderr) = false →
        containsSub "out of memory" (lowerStr stderr) = false →
        containsSub "EncodeImageJXL() failed" stderr = true →
        classify stderr = "cjxl_encoding_failed")
    ∧ (containsSub "Error while decoding the JPEG image" stderr = false →
        containsSub "unsupported input type" (lowerStr stderr) = false →
        containsSub "out of memory" (lowerStr stderr) = false →
        containsSub "EncodeImageJXL() failed" stderr = false →
        classify stderr = "generic_cjxl_failure") := by
  refine ⟨?_, ?_, ?_, ?_, ?_, ?_⟩
  · simp [convert_image, h1, h2, hc]
  · intro ha
    simp [classify, ha]
  · intro ha hb
    simp [classify, ha, hb]
  · intro ha hb hcc
    simp [classify, ha, hb, hcc]
  · intro ha hb hcc hd
    simp [classify, ha, hb, hcc, hd]
  · intro ha hb hcc hd
    simp [classify, ha, hb, hcc, hd]

/-- C3 witness: a non-zero encoder exit whose stderr contains the JPEG-decode
phrase is tagged `corrupt_or_unsupported_jpeg`. -/
theorem C3_classifier_witness :
    (convert_image ⟨some 9,
        .exitCode 1 "cjxl: Error while decoding the JPEG image" false,
        none, true, .ok, true, true, true⟩).2.error_tag
      = some (classify "cjxl: Error while decoding the JPEG image")
    ∧ classify "cjxl: Error while decoding the JPEG image" = "corrupt_or_unsupported_jpeg" := by
  have h := C3_classifier
    ⟨some 9, .exitCode 1 "cjxl: Error while decoding the JPEG image" false,
     none, true, .ok, true, true, true⟩
    9 1 "cjxl: Error while decoding the JPEG image" false rfl rfl (by decide)
  exact ⟨h.1, h.2.1 (by decide)⟩

/-- C4 counterexample to the claim as stated: an unexpected exception during
the encoder invocation records the histogram key `unexpected_python_error`,
which is outside the claim's closed set (the claim instead lists
`unexpected_error` and fallback `unknown`). -/
theorem C4_tag_set_counterexample :
    histKeys (recordOutcome initMetrics
        (convert_image ⟨some 10, .otherError false, none, true, .ok, true, true, true⟩).2)
      = ["unexpected_python_error"]
    ∧ "unexpected_python_error" ∉
        (["file_system_error", "cjxl_not_found", "corrupt_or_unsupported_jpeg",
          "unsupported_input_type", "cjxl_out_of_memory", "cjxl_encoding_failed",
          "generic_cjxl_failure", "timestamp_preservation_failed",
          "unexpected_error", "unknown"] : List String) := by
  decide

/-- C4 (amended): every key ever recorded in a root's failure histogram lies
in the closed set `conversionReasonTags` - the claim's set with
`unexpected_error` replaced by the code's actual `unexpected_python_error`
tag and the fallback key `unknown` replaced by the code's `unknown_error`. -/
theorem C4_histogram_key_set (envOf : String → Env) (files : List String) :
    ∀ k ∈ histKeys (runRoot envOf initMetrics files), k ∈ conversionReasonTags := by
  refine runRoot_induct envOf (fun m => ∀ k ∈ histKeys m, k ∈ conversionReasonTags)
    ?_ files initMetrics (by simp [histKeys, initMetrics])
  intro m f hm k hk
  cases hs : (convert_image (envOf f)).2.success with
  | false =>
      simp only [recordOutcome, hs, Bool.false_eq_true, if_false, histKeys] at hk
      rcases incrReason_keys _ k _ hk with h | h
      · exact hm k (by simpa [histKeys] using h)
      · subst h
        exact reasonKey_mem (envOf f)
  | true =>
      simp only [recordOutcome, hs, if_true, histKeys] at hk
      exact hm k (by simpa [histKeys] using hk)

/-- C4 witness: the key recorded for an unexpected encoder exception is in
the amended closed set. -/
theorem C4_histogram_key_set_witness :
    "unexpected_python_error" ∈ conversionReasonTags :=
  C4_histogram_key_set
    (fun _ => ⟨some 10, .otherError false, none, true, .ok, true, true, true⟩)
    ["a.jpg"] "unexpected_python_error" (by decide)

/-- C5 (amended): when the encoder and the finalize-rename succeed but the
timestamp-copy step fails in any way, the outcome is a failure tagged
`timestamp_preservation_failed`, the original input is left in place, and the
finalized output is deleted provided the deletion call itself succeeds (the
claim's unconditional "is deleted" fails exactly when it does not; see the
counterexample). -/
theorem C5_timestamp_failure (env : Env) (sz cs : Nat) (stderr : String)
    (h1 : env.getsizeOrig = some sz)
    (h2 : env.encoder = .exitCode 0 stderr true)
    (h3 : env.getsizeTemp = some cs)
    (h4 : env.renameOk = true)
    (h5 : env.touch ≠ TouchResult.ok) :
    (convert_image env).2.success = false
    ∧ (convert_image env).2.error_tag = some "timestamp_preservation_failed"
    ∧ (convert_image env).1.origExists = true
    ∧ (env.removeFinalOk = true → (convert_image env).1.finalExists = false) := by
  cases ht : env.touch with
  | ok => exact absurd ht h5
  | notFound =>
      cases hrf : env.removeFinalOk <;>
        simp [convert_image, h1, h2, h3, h4, ht, hrf, cleanupTemp, initFS]
  | calledProcessError s =>
      cases hrf : env.removeFinalOk <;>
        simp [convert_image, h1, h2, h3, h4, ht, hrf, cleanupTemp, initFS]
  | otherError =>
      cases hrf : env.removeFinalOk <;>
        simp [convert_image, h1, h2, h3, h4, ht, hrf, cleanupTemp, initFS]

/-- C5 witness: encoder succeeds, `touch` is absent, the deletion of the
finalized output succeeds - total failure, original kept, output removed. -/
theorem C5_timestamp_failure_witness :
    (convert_image ⟨some 100, .exitCode 0 "" true, some 40, true,
        .notFound, true, true, true⟩).2.error_tag = some "timestamp_preservation_failed"
    ∧ (convert_image ⟨some 100, .exitCode 0 "" true, some 40, true,
        .notFound, true, true, true⟩).1.origExists = true
    ∧ (convert_image ⟨some 100, .exitCode 0 "" true, some 40, true,
        .notFound, true, true, true⟩).1.finalExists = false := by
  have h := C5_timestamp_failure
    ⟨some 100, .exitCode 0 "" true, some 40, true, .notFound, true, true, true⟩
    100 40 "" rfl rfl rfl rfl (by decide)
  exact ⟨h.2.1, h.2.2.1, h.2.2.2 rfl⟩

/-- C5 counterexample to the claim as stated: if the `touch` step fails and
the subsequent `os.remove(final_jxl_filepath)` also fails, the outcome is the
claimed failure with the claimed tag, yet the finalized `.jxl` output is NOT
deleted (main.py lines 266-270 only log the removal error). -/
theorem C5_deletion_counterexample :
    ((convert_image ⟨some 100, .exitCode 0 "" true, some 40, true,
        .notFound, true, false, true⟩).2.success = false)
    ∧ ((convert_image ⟨some 100, .exitCode 0 "" true, some 40, true,
        .notFound, true, false, true⟩).2.error_tag = some "timestamp_preservation_failed")
    ∧ ((convert_image ⟨some 100, .exitCode 0 "" true, some 40, true,
        .notFound, true, false, true⟩).1.finalExists = true) := by
  decide

end JxlSpec

namespace JxlSpec

/-- C6: folding a successful outcome increments the success counter by one,
adds `original - converted` (a signed value) to both the cumulative and the
last-interval space-saved gauges, adds the two sizes to the respective
byte-processed gauges, and leaves every other root's entry untouched. -/
theorem C6_success_fold (m : Metrics) (o : Outcome) (h : o.success = true) :
    recordOutcome m o = { m with
      total_conversions := m.total_conversions + 1,
      successful_conversions := m.successful_conversions + 1,
      total_space_saved_bytes :=
        m.total_space_saved_bytes + ((o.original_size : Int) - (o.converted_size : Int)),
      last_interval_space_saved_bytes :=
        m.last_interval_space_saved_bytes + ((o.original_size : Int) - (o.converted_size : Int)),
      total_original_bytes_processed :=
        m.total_original_bytes_processed + o.original_size,
      total_converted_bytes_processed :=
        m.total_converted_bytes_processed + o.converted_size }
    ∧ ∀ (data : List (String × Metrics)) (dir dother : String), ¬ dother = dir →
        List.lookup dother (recordOutcomeAt data dir o) = List.lookup dother data := by
  constructor
  · simp [recordOutcome, h]
  · intro data dir dother hne
    induction data with
    | nil => rfl
    | cons dm rest ih =>
        obtain ⟨d0, m0⟩ := dm
        by_cases hd : d0 = dir
        · have hb : (dother == d0) = false := by
            refine beq_eq_false_iff_ne.mpr ?_
            intro hco
            exact hne (hco.trans hd)
          simp only [recordOutcomeAt, List.map_cons, if_pos hd] at ih ⊢
          simp only [List.lookup, hb]
          exact ih
        · simp only [recordOutcomeAt, List.map_cons, if_neg hd] at ih ⊢
          cases hb : (dother == d0) <;> simp only [List.lookup, hb]
          exact ih

/-- C6 witness: the spec's `photo.jpg` scenario - 2,000,000-byte original,
1,200,000-byte output - adds 800,000 saved bytes, while a different root's
entry is unchanged. -/
theorem C6_success_fold_witness :
    recordOutcome initMetrics (convert_image sampleEnv).2
      = ⟨1, 1, 0, [], 800000, 800000, 2000000, 1200000⟩
    ∧ List.lookup "other"
        (recordOutcomeAt [("other", initMetrics)] "dir" (convert_image sampleEnv).2)
      = some initMetrics := by
  have h := C6_success_fold initMetrics (convert_image sampleEnv).2 (by decide)
  refine ⟨?_, ?_⟩
  · rw [h.1]
    decide
  · exact (h.2 [("other", initMetrics)] "dir" "other" (by decide)).trans (by decide)

/-- Extending a string that already starts with the failed-counter family
prefix keeps it a failed-counter sample line. -/
theorem isFailedSampleLine_append (s t : String) (h : isFailedSampleLine s = true) :
    isFailedSampleLine (s ++ t) = true := by
  simp only [isFailedSampleLine, String.data_append, decide_eq_true_eq] at h ⊢
  exact h.trans (List.prefix_append _ _)

/-- A string long enough to decide the prefix test and failing it cannot
become a failed-counter sample line by appending more text. -/
theorem isFailedSampleLine_append_false (s t : String)
    (hlen : ("jpeg_to_jxl_conversions_failed_total\x7b").data.length ≤ s.data.length)
    (h : isFailedSampleLine s = false) :
    isFailedSampleLine (s ++ t) = false := by
  simp only [isFailedSampleLine, String.data_append, decide_eq_false_iff_not] at h ⊢
  intro hp
  apply h
  rw [List.prefix_iff_eq_take] at hp ⊢
  rwa [List.take_append_of_le_length hlen] at hp

/-- The attempted-count sample is not a failed-counter sample line. -/
theorem totalSample_not_failed (d : String) (n : Nat) :
    isFailedSampleLine (totalSample d n) = false := by
  unfold totalSample
  simp only [String.append_assoc]
  exact isFailedSampleLine_append_false _ _ (by decide) (by decide)

/-- The success-count sample is not a failed-counter sample line. -/
theorem successfulSample_not_failed (d : String) (n : Nat) :
    isFailedSampleLine (successfulSample d n) = false := by
  unfold successfulSample
  simp only [String.append_assoc]
  exact isFailedSampleLine_append_false _ _ (by decide) (by decide)

/-- The cumulative space-saved sample is not a failed-counter sample line. -/
theorem savedTotalSample_not_failed (d : String) (n : Int) :
    isFailedSampleLine (savedTotalSample d n) = false := by
  unfold savedTotalSample
  simp only [String.append_assoc]
  exact isFailedSampleLine_append_false _ _ (by decide) (by decide)

/-- The last-interval space-saved sample is not a failed-counter sample line. -/
theorem savedLastSample_not_failed (d : String) (n : Int) :
    isFailedSampleLine (savedLastSample d n) = false := by
  unfold savedLastSample
  simp only [String.append_assoc]
  exact isFailedSampleLine_append_false _ _ (by decide) (by decide)

/-- The original-bytes sample is not a failed-counter sample line. -/
theorem origBytesSample_not_failed (d : String) (n : Nat) :
    isFailedSampleLine (origBytesSample d n) = false := by
  unfold origBytesSample
  simp only [String.append_assoc]
  exact isFailedSampleLine_append_false _ _ (by decide) (by decide)

/-- The converted-bytes sample is not a failed-counter sample line. -/
theorem convBytesSample_not_failed (d : String) (n : Nat) :
    isFailedSampleLine (convBytesSample d n) = false := by
  unfold convBytesSample
  simp only [String.append_assoc]
  exact isFailedSampleLine_append_false _ _ (by decide) (by decide)

/-- The placeholder `reason="none"` line is a failed-counter sample line. -/
theorem failedNoneSample_is_failed (d : String) :
    isFailedSampleLine (failedNoneSample d) = true := by
  unfold failedNoneSample
  simp only [String.append_assoc]
  exact isFailedSampleLine_append _ _ (by decide)

/-- Every per-reason failure line is a failed-counter sample line. -/
theorem failedSample_is_failed (d r : String) (c : Nat) :
    isFailedSampleLine (failedSample d r c) = true := by
  unfold failedSample
  simp only [String.append_assoc]
  exact isFailedSampleLine_append _ _ (by decide)

end JxlSpec

namespace JxlSpec

/-- C7: among the rendered lines for one root, the failed-counter sample
lines are exactly the placeholder `reason="none"` zero line when the failure
histogram is empty, and otherwise exactly one line per observed reason tag
carrying that tag's count. -/
theorem C7_failed_lines (d : String) (m : Metrics) :
    (renderMetrics d m).filter isFailedSampleLine =
      (if m.failed_reasons.isEmpty then [failedNoneSample d]
       else m.failed_reasons.map fun rc => failedSample d rc.1 rc.2) := by
  have hfb : (failedBlock d m).filter isFailedSampleLine = failedBlock d m := by
    rw [List.filter_eq_self]
    intro a ha
    unfold failedBlock at ha
    by_cases he : m.failed_reasons.isEmpty
    · simp only [he, if_true] at ha
      simp only [List.mem_singleton] at ha
      subst ha
      exact failedNoneSample_is_failed d
    · rw [Bool.not_eq_true] at he
      simp only [he, Bool.false_eq_true, if_false] at ha
      simp only [List.mem_map] at ha
      obtain ⟨rc, _, rfl⟩ := ha
      exact failedSample_is_failed d rc.1 rc.2
  have hc1 : isFailedSampleLine "# HELP jpeg_to_jxl_conversions_total Total JPEG to JXL conversions attempted per directory." = false := by decide
  have hc2 : isFailedSampleLine "# TYPE jpeg_to_jxl_conversions_total counter" = false := by decide
  have hc3 : isFailedSampleLine "# HELP jpeg_to_jxl_conversions_successful_total Total successful JPEG to JXL conversions per directory." = false := by decide
  have hc4 : isFailedSampleLine "# TYPE jpeg_to_jxl_conversions_successful_total counter" = false := by decide
  have hc5 : isFailedSampleLine "# HELP jpeg_to_jxl_conversions_failed_total Total failed JPEG to JXL conversions per directory." = false := by decide
  have hc6 : isFailedSampleLine "# TYPE jpeg_to_jxl_conversions_failed_total counter" = false := by decide
  have hc7 : isFailedSampleLine "# HELP jpeg_to_jxl_space_saved_bytes_total Total space saved by JXL conversions in bytes per directory." = false := by decide
  have hc8 : isFailedSampleLine "# TYPE jpeg_to_jxl_space_saved_bytes_total gauge" = false := by decide
  have hc9 : isFailedSampleLine "# HELP jpeg_to_jxl_space_saved_bytes_last_interval Space saved in the last conversion interval in bytes per directory." = false := by decide
  have hc10 : isFailedSampleLine "# TYPE jpeg_to_jxl_space_saved_bytes_last_interval gauge" = false := by decide
  have hc11 : isFailedSampleLine "# HELP jpeg_to_jxl_original_bytes_processed_total Total bytes of original files processed successfully per directory." = false := by decide
  have hc12 : isFailedSampleLine "# TYPE jpeg_to_jxl_original_bytes_processed_total gauge" = false := by decide
  have hc13 : isFailedSampleLine "# HELP jpeg_to_jxl_converted_bytes_processed_total Total bytes of converted JXL files processed successfully per directory." = false := by decide
  have hc14 : isFailedSampleLine "# TYPE jpeg_to_jxl_converted_bytes_processed_total gauge" = false := by decide
  unfold renderMetrics
  rw [List.filter_append, List.filter_append, hfb]
  simp only [List.filter_cons, List.filter_nil, hc1, hc2, hc3, hc4, hc5, hc6, hc7, hc8,
    hc9, hc10, hc11, hc12, hc13, hc14,
    totalSample_not_failed, successfulSample_not_failed, savedTotalSample_not_failed,
    savedLastSample_not_failed, origBytesSample_not_failed, convBytesSample_not_failed,
    Bool.false_eq_true, if_false, List.nil_append, List.append_nil]
  unfold failedBlock
  rfl

/-- C8: the publish step writes the full rendered content to a temporary path
obtained by suffixing the final artifact path (hence in the same directory)
and installs it with one atomic rename, so every state a reader of the final
path can observe holds either the complete previous content or the complete
new content - also when the process is interrupted mid-write before the
rename - and the uninterrupted trace ends with the new content installed. -/
theorem C8_atomic_publish (old : Option String) (content : String) (interrupt : Option Nat) :
    ((publishTrace old content interrupt).all fun s =>
        s.finalContent == old || s.finalContent == some content) = true
    ∧ (publishTrace old content none).getLast? = some ⟨some content, none⟩
    ∧ (∀ p : String, tempPathOf p = p ++ ".tmp") := by
  refine ⟨?_, by simp [publishTrace], fun p => rfl⟩
  cases interrupt <;> simp [publishTrace]

/-- A nonempty suffix fixes the last element of a character list. -/
theorem suffix_getLast {l₁ l₂ : List Char} (h : l₁ <:+ l₂) {a : Char}
    (ha : l₁.getLast? = some a) : l₂.getLast? = some a := by
  obtain ⟨t, rfl⟩ := h
  rw [List.getLast?_append, ha]
  rfl

/-- A walked name that ends in the produced `.jxl` extension fails the
eligibility filter of line 343. -/
theorem jxl_not_eligible (f : String) (h : (".jxl").data <:+ f.data) :
    isEligible f = false := by
  have h1 : f.data.getLast? = some 'l' := suffix_getLast h (by decide)
  have hlast : (lowerStr f).data.getLast? = some 'l' := by
    simp only [lowerStr, List.getLast?_map, h1]
    decide
  simp only [isEligible, endsWithStr, Bool.or_eq_false_iff, decide_eq_false_iff_not]
  constructor
  · intro hp
    have hg := suffix_getLast hp (show (".jpg").data.getLast? = some 'g' by decide)
    rw [hlast] at hg
    exact absurd hg (by decide)
  · intro hp
    have hg := suffix_getLast hp (show (".jpeg").data.getLast? = some 'g' by decide)
    rw [hlast] at hg
    exact absurd hg (by decide)

/-- A file list containing no eligible name leaves the metrics fold alone. -/
theorem runRoot_skip (envOf : String → Env) :
    ∀ files : List String, (∀ f ∈ files, isEligible f = false) →
      ∀ m : Metrics, runRoot envOf m files = m := by
  intro files
  induction files with
  | nil => intro _ m; rfl
  | cons f fs ih =>
      intro hall m
      have hf : isEligible f = false := hall f (by simp)
      have hsp : runRoot envOf m (f :: fs) =
          runRoot envOf
            (if isEligible f then recordOutcome m (convert_image (envOf f)).2 else m) fs := rfl
      rw [hsp, hf]
      simpa using ih (fun g hg => hall g (by simp [hg])) m

/-- When every walked file of every root already carries the `.jxl` extension
and every last-interval gauge starts at zero (as in a fresh run), the whole
batch pass is the identity on the metrics data. -/
theorem run_conversion_noop (envOf : String → String → Env) (filesOf : String → List String)
    (hjxl : ∀ dir f, f ∈ filesOf dir → (".jxl").data <:+ f.data) :
    ∀ data : List (String × Metrics),
      (∀ dm ∈ data, dm.2.last_interval_space_saved_bytes = 0) →
      run_conversion envOf filesOf data = data := by
  intro data
  induction data with
  | nil => intro _; rfl
  | cons dm rest ih =>
      intro hlast
      obtain ⟨d0, m0⟩ := dm
      have h0 : m0.last_interval_space_saved_bytes = 0 := by
        simpa using hlast (d0, m0) (by simp)
      have hm0 : ({ m0 with last_interval_space_saved_bytes := 0 } : Metrics) = m0 := by
        cases m0
        simp_all
      have hskip : runRoot (envOf d0) m0 (filesOf d0) = m0 :=
        runRoot_skip (envOf d0) (filesOf d0)
          (fun f hf => jxl_not_eligible f (hjxl d0 f hf)) m0
      have hrest : run_conversion envOf filesOf rest = rest :=
        ih (fun dm hdm => hlast dm (by simp [hdm]))
      simp only [run_conversion, List.map_cons] at hrest ⊢
      rw [hm0, hskip, hrest]

/-- C9: a file is handed to `convert_image` iff its name, lower-cased, ends
in `.jpg` or `.jpeg`; hence over a directory whose files all carry the
produced `.jxl` extension the filter selects nothing, the per-root fold is
the identity, and a whole second batch run (starting, as every fresh run
does, with zeroed last-interval gauges) changes neither counters nor
filesystem - no file reaches the engine. -/
theorem C9_eligibility :
    (∀ f : String, isEligible f = true ↔
       ((".jpg").data <:+ (lowerStr f).data ∨ (".jpeg").data <:+ (lowerStr f).data))
    ∧ (∀ (envOf : String → Env) (m : Metrics) (files : List String),
        (∀ f ∈ files, (".jxl").data <:+ f.data) →
        files.filter isEligible = [] ∧ runRoot envOf m files = m)
    ∧ (∀ (envOf : String → String → Env) (filesOf : String → List String)
          (data : List (String × Metrics)),
        (∀ dir f, f ∈ filesOf dir → (".jxl").data <:+ f.data) →
        (∀ dm ∈ data, dm.2.last_interval_space_saved_bytes = 0) →
        run_conversion envOf filesOf data = data) := by
  refine ⟨?_, ?_, ?_⟩
  · intro f
    simp [isEligible, endsWithStr]
  · intro envOf m files hall
    have hne : ∀ f ∈ files, isEligible f = false :=
      fun f hf => jxl_not_eligible f (hall f hf)
    refine ⟨List.filter_eq_nil_iff.mpr ?_, runRoot_skip envOf files hne m⟩
    intro a ha
    simp [hne a ha]
  · exact fun envOf filesOf data hjxl hlast => run_conversion_noop envOf filesOf hjxl data hlast

/-- C9 witness: a fully converted directory (all names ending in `.jxl`)
yields an empty filter result and an unchanged metrics fold. -/
theorem C9_eligibility_witness :
    ["photo.jxl", "b.jxl"].filter isEligible = []
    ∧ runRoot (fun _ => sampleEnv) initMetrics ["photo.jxl", "b.jxl"] = initMetrics :=
  C9_eligibility.2.1 (fun _ => sampleEnv) initMetrics ["photo.jxl", "b.jxl"] (by decide)

/-- C10: the histogram's total count equals the failed counter: it holds
initially, successful outcomes leave the histogram untouched, each failed
outcome increments exactly one key (the outcome's tag, or `unknown_error`
when the tag is absent) together with the failed counter, the equality is
preserved by every per-file update, and hence holds after any per-root
sequence. -/
theorem C10_histogram_total :
    histTotal initMetrics = initMetrics.failed_conversions
    ∧ (∀ (m : Metrics) (o : Outcome), o.success = true →
        (recordOutcome m o).failed_reasons = m.failed_reasons)
    ∧ (∀ (m : Metrics) (o : Outcome), o.success = false →
        (recordOutcome m o).failed_reasons
            = incrReason m.failed_reasons (o.error_tag.getD "unknown_error")
          ∧ (recordOutcome m o).failed_conversions = m.failed_conversions + 1)
    ∧ (∀ (m : Metrics) (o : Outcome),
        histTotal m = m.failed_conversions →
        histTotal (recordOutcome m o) = (recordOutcome m o).failed_conversions)
    ∧ (∀ (envOf : String → Env) (m : Metrics) (files : List String),
        histTotal m = m.failed_conversions →
        histTotal (runRoot envOf m files) = (runRoot envOf m files).failed_conversions) := by
  have hrec : ∀ (m : Metrics) (o : Outcome),
      histTotal m = m.failed_conversions →
      histTotal (recordOutcome m o) = (recordOutcome m o).failed_conversions := by
    intro m o hm
    simp only [histTotal] at hm
    cases ho : o.success with
    | false => simp [recordOutcome, ho, histTotal, incrReason_sum, hm]
    | true => simp [recordOutcome, ho, histTotal, hm]
  refine ⟨rfl, ?_, ?_, hrec, ?_⟩
  · intro m o h
    simp [recordOutcome, h]
  · intro m o h
    constructor <;> simp [recordOutcome, h]
  · intro envOf m files hm
    exact runRoot_induct envOf (fun m => histTotal m = m.failed_conversions)
      (fun m f h => hrec m _ h) files m hm

/-- C10 witness: one failed probe (`os.path.getsize` error) yields histogram
total 1 equal to the failed counter. -/
theorem C10_histogram_total_witness :
    histTotal (runRoot (fun _ => ⟨none, .notFound, none, true, .ok, true, true, true⟩)
        initMetrics ["a.jpg"])
      = (runRoot (fun _ => ⟨none, .notFound, none, true, .ok, true, true, true⟩)
          initMetrics ["a.jpg"]).failed_conversions :=
  C10_histogram_total.2.2.2.2
    (fun _ => ⟨none, .notFound, none, true, .ok, true, true, true⟩)
    initMetrics ["a.jpg"] rfl

end JxlSpec
